import Mathlib

/-!
Shallow embedding of `raw_other.go` (package rawcon): the per-flow
L2/L3/L4 send template, the send helpers, the dial handshake loop, the
dial-side reader and the listener state machine, as plain Lean functions.

Machine integers are modelled as `Nat` with explicit reductions modulo
2^16 (IPv4 Id, a Go uint16) and 2^32 (TCP Seq/Ack, Go uint32) at the
points where the Go code performs wrapping arithmetic.  Payload bytes are
`List Nat`.  Packet injection can fail (pcap write errors); the success
of an injection is an environment parameter `ok : Bool`.
-/

/-- 2^32, the modulus of Go's uint32 arithmetic on TCP Seq/Ack. -/
def U32 : Nat := 4294967296

/-- 2^16, the modulus of Go's uint16 arithmetic on the IPv4 Id. -/
def U16 : Nat := 65536

/-- One TCP option of the template (`layers.TCPOption`): kind and data. -/
structure TCPOptionM where
  kind : Nat
  data : List Nat
deriving DecidableEq, Repr

/-- The mutable TCP header template (`layers.TCP`): ports, cursors,
control flags, options, payload and padding. -/
structure TCPLayerM where
  SrcPort : Nat
  DstPort : Nat
  Seq : Nat
  Ack : Nat
  FIN : Bool
  PSH : Bool
  ACK : Bool
  RST : Bool
  SYN : Bool
  Options : List TCPOptionM
  Payload : List Nat
  Padding : List Nat
deriving DecidableEq, Repr

/-- The mutable IPv4 header template (`layers.IPv4`): the fields the send
path touches.  Addresses are abstracted to `Nat`. -/
structure IPv4LayerM where
  SrcIP : Nat
  DstIP : Nat
  Id : Nat
deriving DecidableEq, Repr

/-- `pktLayers`: the per-flow send template (link layer omitted; no send
helper reads or mutates it). -/
structure PktLayersM where
  ip4 : IPv4LayerM
  tcp : TCPLayerM
deriving DecidableEq, Repr

/-- An emitted segment as observed on the wire: the IPv4 Id and the TCP
fields serialized by `sendPacket`. -/
structure Emitted where
  ipId : Nat
  FIN : Bool
  PSH : Bool
  ACK : Bool
  RST : Bool
  SYN : Bool
  Seq : Nat
  Ack : Nat
  Payload : List Nat
deriving DecidableEq, Repr

/-- Result of one injection: the template after the send, the segment
built from it, and the error flag of `WritePacketData`. -/
structure SendResult where
  layer : PktLayersM
  seg : Emitted
  err : Bool
deriving Repr

/-- `RAWConn.sendPacket`: increments the template's IPv4 Id (uint16, so
modulo 2^16), serializes the template and injects it.  `ok` is whether
the pcap injection succeeds; the Id increment happens either way. -/
def sendPacket (l : PktLayersM) (ok : Bool) : SendResult :=
  let id := (l.ip4.Id + 1) % U16
  let l1 : PktLayersM := { l with ip4 := { l.ip4 with Id := id } }
  { layer := l1
    seg := { ipId := id, FIN := l1.tcp.FIN, PSH := l1.tcp.PSH,
             ACK := l1.tcp.ACK, RST := l1.tcp.RST, SYN := l1.tcp.SYN,
             Seq := l1.tcp.Seq, Ack := l1.tcp.Ack, Payload := l1.tcp.Payload }
    err := !ok }

/-- `RAWConn.updateTCP`: clears the padding and all five TCP control
flags of the template before each send. -/
def updateTCP (t : TCPLayerM) : TCPLayerM :=
  { t with Padding := [], FIN := false, PSH := false, ACK := false,
           RST := false, SYN := false }

/-- The MSS/WindowScale/SACK-permitted option triple appended by
`sendSyn` and `sendSynAck` (MSS = 0x05b4 = 1460, scale 6). -/
def handshakeOptions : List TCPOptionM :=
  [ { kind := 2, data := [5, 180] },
    { kind := 3, data := [6] },
    { kind := 4, data := [] } ]

/-- `RAWConn.sendSyn`: clear flags, set SYN, append the handshake
options, send, and restore the options (the Go `defer`). -/
def sendSyn (l : PktLayersM) (ok : Bool) : SendResult :=
  let t := updateTCP l.tcp
  let t1 := { t with SYN := true, Options := t.Options ++ handshakeOptions }
  let r := sendPacket { l with tcp := t1 } ok
  { r with layer := { r.layer with tcp := { r.layer.tcp with Options := l.tcp.Options } } }

/-- `RAWConn.sendSynAck`: clear flags, set SYN and ACK, append the
handshake options, send, restore the options. -/
def sendSynAck (l : PktLayersM) (ok : Bool) : SendResult :=
  let t := updateTCP l.tcp
  let t1 := { t with SYN := true, ACK := true, Options := t.Options ++ handshakeOptions }
  let r := sendPacket { l with tcp := t1 } ok
  { r with layer := { r.layer with tcp := { r.layer.tcp with Options := l.tcp.Options } } }

/-- `RAWConn.sendAck`: clear flags, set ACK, send. -/
def sendAck (l : PktLayersM) (ok : Bool) : SendResult :=
  let t := updateTCP l.tcp
  sendPacket { l with tcp := { t with ACK := true } } ok

/-- `RAWConn.sendFin`: clear flags, set FIN, send. -/
def sendFin (l : PktLayersM) (ok : Bool) : SendResult :=
  let t := updateTCP l.tcp
  sendPacket { l with tcp := { t with FIN := true } } ok

/-- `RAWConn.sendRst`: clear flags, set RST, send. -/
def sendRst (l : PktLayersM) (ok : Bool) : SendResult :=
  let t := updateTCP l.tcp
  sendPacket { l with tcp := { t with RST := true } } ok

/-- Result of `RAWConn.write` / `RAWConn.Write`: template after the call,
the returned byte count, the built segment and the error flag. -/
structure WriteResult where
  layer : PktLayersM
  n : Nat
  seg : Emitted
  err : Bool
deriving Repr

/-- `RAWConn.write`: `n = len(b)` unconditionally; clear flags, set PSH
and ACK, load the payload, send, and clear the payload again (the Go
`defer`).  Does not touch `Seq`. -/
def writeSeg (l : PktLayersM) (b : List Nat) (ok : Bool) : WriteResult :=
  let n := b.length
  let t := updateTCP l.tcp
  let t1 := { t with PSH := true, ACK := true, Payload := b }
  let r := sendPacket { l with tcp := t1 } ok
  { layer := { r.layer with tcp := { r.layer.tcp with Payload := [] } }
    n := n, seg := r.seg, err := r.err }

/-- `RAWConn.Write`: under the connection mutex, call `write` and then
add `uint32(n)` to `Seq` — unconditionally, whether or not the send
returned an error. -/
def RAWConnWrite (l : PktLayersM) (b : List Nat) (ok : Bool) : WriteResult :=
  let r := writeSeg l b ok
  { r with layer := { r.layer with tcp :=
      { r.layer.tcp with Seq := (r.layer.tcp.Seq + r.n) % U32 } } }

/-- A captured segment as seen by the read paths: the TCP fields the
state machines inspect (RST/FIN for eviction, the three flags the
classifiers test, Seq, options and payload). -/
structure CapSeg where
  SYN : Bool
  ACK : Bool
  PSH : Bool
  FIN : Bool
  RST : Bool
  Seq : Nat
  Payload : List Nat
  Options : List TCPOptionM
deriving DecidableEq, Repr

/-- The ack-cursor update both read paths perform on a captured payload
segment (`if uint64(tcp.Seq)+uint64(n) > uint64(ack) then ack = tcp.Seq +
uint32(n)`): the comparison is on the widened (non-wrapping) sum, the
stored value is the uint32 (wrapped) sum. -/
def updateAck (ack seq n : Nat) : Nat :=
  if seq + n > ack then (seq + n) % U32 else ack

/-- `RAWConn.ReadFrom` over a finite stream of captured segments, with
`hseqn` the recorded HTTP-response sequence, `bufLen` the caller's
buffer length and `ack` the template's Ack cursor.  A SYN+ACK answers
with a bare ACK and continues; a segment that is not PSH+ACK, or whose
Seq equals `hseqn`, is skipped; otherwise `n = len(Payload)` and, when
`n > 0`, the Ack cursor is updated and `copy` delivers
`min bufLen n` bytes.  Returns `some (delivered, ack)` or `none` when
the stream ends. -/
def dialReadFrom (hseqn bufLen ack : Nat) : List CapSeg → Option (Nat × Nat)
  | [] => none
  | s :: rest =>
    if s.SYN && s.ACK then dialReadFrom hseqn bufLen ack rest
    else if !s.PSH || !s.ACK || s.Seq == hseqn then dialReadFrom hseqn bufLen ack rest
    else
      let n := s.Payload.length
      if n > 0 then some (min bufLen n, updateAck ack s.Seq n)
      else some (0, ack)

/-- One read attempt of the dial handshake loop, as the environment sees
it: a temporary timeout, a permanent error, or a captured packet (with
whether it is a SYN+ACK). -/
inductive ReadAttempt where
  | timeout
  | permErr
  | pkt (synack : Bool)
deriving DecidableEq, Repr

/-- Outcome of the dial TCP-handshake loop, carrying the number of SYN
segments that were sent. -/
inductive Phase1Result where
  | tooMany (syns : Nat)
  | permanent (syns : Nat)
  | finished (syns : Nat) (gotSynAck : Bool)
deriving DecidableEq, Repr

/-- Number of SYN transmissions recorded in a `Phase1Result`. -/
def Phase1Result.synCount : Phase1Result → Nat
  | .tooMany s => s
  | .permanent s => s
  | .finished s _ => s

/-- The handshake loop of `Raw.DialRAW` (phase 1).  The Go loop keeps a
counter `retry` starting at 0 and exits with "retry too many times" when
`retry > 5`; here `left = 6 - retry` counts the attempts still allowed.
Each iteration sends one SYN and reads one result: a temporary timeout
retries, a permanent error aborts, and any captured packet leaves the
loop (after the SYN+ACK handling when it is one). -/
def dialPhase1 (reads : Nat → ReadAttempt) : Nat → Nat → Nat → Phase1Result
  | 0, _, syns => .tooMany syns
  | left + 1, idx, syns =>
    match reads idx with
    | .timeout => dialPhase1 reads left (idx + 1) (syns + 1)
    | .permErr => .permanent (syns + 1)
    | .pkt sa => .finished (syns + 1) sa

/-- Listener flow states (`synreceived`, `waithttpreq`, `httprepsent`,
`established`). -/
inductive LState where
  | synreceived
  | waithttpreq
  | httprepsent
  | established
deriving DecidableEq, Repr

/-- `connInfo`: per-flow state, send template, cached decoy response
(`none` for Go's nil slice), the peer HTTP-request sequence and the MSS
recorded from the peer's SYN. -/
structure ConnInfoM where
  state : LState
  layer : PktLayersM
  rep : Option (List Nat)
  hseqn : Nat
  mss : Int
deriving DecidableEq, Repr

/-- `getMssFromTcpLayer`: scan the TCP options for the MSS kind (2) with
non-empty data and decode a big-endian 16-bit value; absence yields 0. -/
def getMssFromTcpLayer : List TCPOptionM → Int
  | [] => 0
  | v :: rest =>
    if v.kind = 2 ∧ v.data ≠ [] then
      Int.ofNat (v.data.headI * 256 + (v.data.drop 1).headI)
    else getMssFromTcpLayer rest

/-- Map lookup on the listener's connection tables (Go map keyed by the
peer's address string). -/
def lookupAssoc : List (String × ConnInfoM) → String → Option ConnInfoM
  | [], _ => none
  | (k, v) :: rest, a => if k = a then some v else lookupAssoc rest a

/-- Map store on the listener's connection tables: replace the entry of
an existing key. -/
def updateAssoc : List (String × ConnInfoM) → String → ConnInfoM → List (String × ConnInfoM)
  | [], _, _ => []
  | (k, v) :: rest, a, nv =>
    if k = a then (k, nv) :: rest else (k, v) :: updateAssoc rest a nv

/-- `RAWListener.GetMSSByAddr`: look the address up in the established
table `conns` only; return the recorded MSS when the entry exists and
its MSS is positive, else 0.  The pre-established table `newcons` is
never consulted. -/
def GetMSSByAddr (conns : List (String × ConnInfoM)) (addr : String) : Int :=
  match lookupAssoc conns addr with
  | some c => if c.mss > 0 then c.mss else 0
  | none => 0

/-- Result of `RAWListener.WriteTo`: the established table after the
call, the returned byte count, the returned error message (`none` for
success), the emitted segment if any, and the injection error flag. -/
structure LWriteResult where
  conns : List (String × ConnInfoM)
  n : Nat
  errMsg : Option String
  seg : Option Emitted
  sendErr : Bool
deriving Repr

/-- `RAWListener.WriteTo`: look the address up in `conns` under the
table mutex; an unknown peer fails with "cannot write to " ++ addr and
nothing is sent; otherwise point the listener's template at the flow's
template and call `Write` on it. -/
def RAWListenerWriteTo (conns : List (String × ConnInfoM)) (addr : String)
    (b : List Nat) (ok : Bool) : LWriteResult :=
  match lookupAssoc conns addr with
  | none => { conns := conns, n := 0, errMsg := some ("cannot write to " ++ addr),
              seg := none, sendErr := false }
  | some info =>
    let r := RAWConnWrite info.layer b ok
    { conns := updateAssoc conns addr { info with layer := r.layer }
      n := r.n
      errMsg := if r.err then some "write packet data error" else none
      seg := some r.seg
      sendErr := r.err }

/-- The 4 ASCII bytes "POST" checked against the head of a captured
HTTP-request payload. -/
def postBytes : List Nat := [80, 79, 83, 84]

/-- The 4 bytes CRLF CRLF checked against the tail of the decoy HTTP
payloads. -/
def crlf2 : List Nat := [13, 10, 13, 10]

/-- Modelled from the spec: `buildHTTPResponse("")` is defined outside
this file; its exact bytes are not part of the contract beyond being at
least 20 bytes, starting with "HTTP" and ending with CRLF CRLF.  A
minimal status line of that shape. -/
def buildHTTPResponseBytes : List Nat :=
  [72, 84, 84, 80, 47, 49, 46, 49, 32, 50, 48, 48, 32, 79, 75, 13, 10] ++ crlf2

/-- Result of one listener step on a flow found in `newcons`: the flow
record afterwards, whether it was promoted into `conns`, the segment
emitted (decoy response or SYN+ACK resend), and the error flag. -/
structure NewconsStepResult where
  info : ConnInfoM
  promoted : Bool
  emit : Option Emitted
  err : Bool
deriving Repr

/-- The `waithttpreq` branch of `RAWListener.ReadFrom` (a flow found in
`newcons` in that state).  A PSH+ACK whose payload length is strictly
greater than 20, whose first 4 bytes are "POST" and whose last 4 bytes
are CRLF CRLF: add `uint32(n)` to the flow's Ack, build the decoy
response if not cached, record `hseqn`, send the response, and on
success move to `httprepsent` and promote the flow into `conns`.  A bare
SYN re-sends the SYN+ACK.  Anything else is ignored. -/
def waithttpreqStep (info : ConnInfoM) (s : CapSeg) (ok : Bool) : NewconsStepResult :=
  let n := s.Payload.length
  if s.PSH ∧ s.ACK ∧ n > 20 then
    if s.Payload.take 4 = postBytes ∧ s.Payload.drop (n - 4) = crlf2 then
      let t := info.layer.tcp
      let layer1 : PktLayersM :=
        { info.layer with tcp := { t with Ack := (t.Ack + n) % U32 } }
      let rep := match info.rep with
        | none => buildHTTPResponseBytes
        | some r => r
      let info1 : ConnInfoM := { info with layer := layer1, rep := some rep, hseqn := s.Seq }
      let w := writeSeg info1.layer rep ok
      if w.err then
        { info := { info1 with layer := w.layer }, promoted := false,
          emit := some w.seg, err := true }
      else
        { info := { info1 with layer := w.layer, state := .httprepsent },
          promoted := true, emit := some w.seg, err := false }
    else { info := info, promoted := false, emit := none, err := false }
  else if s.SYN ∧ ¬ s.ACK ∧ ¬ s.PSH then
    let r := sendSynAck info.layer ok
    { info := { info with layer := r.layer }, promoted := false,
      emit := some r.seg, err := r.err }
  else { info := info, promoted := false, emit := none, err := false }

/-- Result of one listener step on a payload segment of a flow found in
`conns`: the flow record afterwards, the number of bytes delivered to
the caller when the read returns (`none` = continue), the segment
emitted (response resend), and the error flag. -/
structure ConnsStepResult where
  info : ConnInfoM
  deliver : Option Nat
  emit : Option Emitted
  err : Bool
deriving Repr

/-- The `conns` branch of `RAWListener.ReadFrom` for a captured segment
with non-empty payload (`ok && n != 0`, no RST/FIN).  First the
max-with-current Ack update; then, in state `httprepsent`: a PSH+ACK
replaying the recorded request (`Seq == hseqn`, `n > 20`, POST shape)
re-sends the cached response after setting Ack past it and advancing Seq
by the response length, while any other PSH+ACK drops the cached
response and promotes the state to `established`; finally, in state
`established`, `copy` delivers `min bufLen n` bytes and the read
returns. -/
def connsStep (bufLen : Nat) (info : ConnInfoM) (s : CapSeg) (ok : Bool) : ConnsStepResult :=
  let n := s.Payload.length
  let t0 := info.layer.tcp
  let info1 : ConnInfoM :=
    { info with layer := { info.layer with tcp :=
        { t0 with Ack := updateAck t0.Ack s.Seq n } } }
  let afterRep : ConnInfoM × Option Emitted × Bool :=
    if info1.state = .httprepsent then
      if s.PSH ∧ s.ACK then
        if s.Seq = info1.hseqn ∧ n > 20 then
          if s.Payload.take 4 = postBytes ∧ s.Payload.drop (n - 4) = crlf2 then
            let t := info1.layer.tcp
            let rep := match info1.rep with
              | none => []
              | some r => r
            let layer2 : PktLayersM :=
              { info1.layer with tcp := { t with Ack := (s.Seq + n) % U32,
                                                 Seq := (t.Seq + rep.length) % U32 } }
            let w := writeSeg layer2 rep ok
            ({ info1 with layer := w.layer }, some w.seg, w.err)
          else (info1, none, false)
        else ({ info1 with rep := none, state := .established }, none, false)
      else (info1, none, false)
    else (info1, none, false)
  let info2 := afterRep.1
  if afterRep.2.2 then
    { info := info2, deliver := none, emit := afterRep.2.1, err := true }
  else if info2.state = .established then
    { info := info2, deliver := some (min bufLen n), emit := afterRep.2.1, err := false }
  else
    { info := info2, deliver := none, emit := afterRep.2.1, err := false }

/-- The unknown-address SYN branch of `RAWListener.ReadFrom`: build a
reversed template, seed Ack with `peer.Seq + 1`, record the peer MSS
from the SYN's options, and register the flow in `newcons` in state
`synreceived` (the random Seq seed is a parameter). -/
def newFlowFromSyn (srcIP dstIP srcPort dstPort idSeed seqSeed : Nat)
    (s : CapSeg) : ConnInfoM :=
  { state := .synreceived
    layer :=
      { ip4 := { SrcIP := dstIP, DstIP := srcIP, Id := idSeed }
        tcp := { SrcPort := dstPort, DstPort := srcPort,
                 Seq := seqSeed, Ack := (s.Seq + 1) % U32,
                 FIN := false, PSH := false, ACK := false, RST := false, SYN := false,
                 Options := [], Payload := [], Padding := [] } }
    rep := none
    hseqn := 0
    mss := getMssFromTcpLayer s.Options }

/-- A concrete TCP template used by concrete instances below. -/
def tcp0 : TCPLayerM :=
  { SrcPort := 1000, DstPort := 2000, Seq := 0, Ack := 0,
    FIN := false, PSH := false, ACK := false, RST := false, SYN := false,
    Options := [], Payload := [], Padding := [] }

/-- A concrete send template used by concrete instances below. -/
def l0 : PktLayersM := { ip4 := { SrcIP := 1, DstIP := 2, Id := 7 }, tcp := tcp0 }

/-- A concrete established-flow record. -/
def info0 : ConnInfoM :=
  { state := .established, layer := l0, rep := none, hseqn := 5, mss := 1400 }

/-- A concrete flow record in state `waithttpreq`. -/
def infoW : ConnInfoM :=
  { state := .waithttpreq, layer := l0, rep := none, hseqn := 0, mss := 0 }

/-- A 20-byte captured PSH+ACK payload of the decoy-POST shape: "POST",
12 filler bytes, CRLF CRLF. -/
def seg20 : CapSeg :=
  { SYN := false, ACK := true, PSH := true, FIN := false, RST := false,
    Seq := 77,
    Payload := postBytes ++ [97, 97, 97, 97, 97, 97, 97, 97, 97, 97, 97, 97] ++ crlf2,
    Options := [] }

/-- A 21-byte captured PSH+ACK payload of the decoy-POST shape. -/
def seg21 : CapSeg :=
  { SYN := false, ACK := true, PSH := true, FIN := false, RST := false,
    Seq := 88,
    Payload := postBytes ++ [97, 97, 97, 97, 97, 97, 97, 97, 97, 97, 97, 97, 98] ++ crlf2,
    Options := [] }

/-- C5: every send helper first clears all TCP control flags and then
sets exactly its own, so the emitted segment's flag set is exactly the
helper's regardless of the template's prior flags: `sendSyn` SYN only,
`sendSynAck` SYN+ACK, `sendAck` ACK only, `write` PSH+ACK carrying the
payload, `sendFin` FIN only, `sendRst` RST only. -/
theorem c5_flag_discipline (l : PktLayersM) (b : List Nat) (ok : Bool) :
    ((sendSyn l ok).seg.SYN = true ∧ (sendSyn l ok).seg.ACK = false
      ∧ (sendSyn l ok).seg.PSH = false ∧ (sendSyn l ok).seg.FIN = false
      ∧ (sendSyn l ok).seg.RST = false)
  ∧ ((sendSynAck l ok).seg.SYN = true ∧ (sendSynAck l ok).seg.ACK = true
      ∧ (sendSynAck l ok).seg.PSH = false ∧ (sendSynAck l ok).seg.FIN = false
      ∧ (sendSynAck l ok).seg.RST = false)
  ∧ ((sendAck l ok).seg.ACK = true ∧ (sendAck l ok).seg.SYN = false
      ∧ (sendAck l ok).seg.PSH = false ∧ (sendAck l ok).seg.FIN = false
      ∧ (sendAck l ok).seg.RST = false)
  ∧ ((writeSeg l b ok).seg.PSH = true ∧ (writeSeg l b ok).seg.ACK = true
      ∧ (writeSeg l b ok).seg.SYN = false ∧ (writeSeg l b ok).seg.FIN = false
      ∧ (writeSeg l b ok).seg.RST = false ∧ (writeSeg l b ok).seg.Payload = b)
  ∧ ((sendFin l ok).seg.FIN = true ∧ (sendFin l ok).seg.SYN = false
      ∧ (sendFin l ok).seg.ACK = false ∧ (sendFin l ok).seg.PSH = false
      ∧ (sendFin l ok).seg.RST = false)
  ∧ ((sendRst l ok).seg.RST = true ∧ (sendRst l ok).seg.SYN = false
      ∧ (sendRst l ok).seg.ACK = false ∧ (sendRst l ok).seg.PSH = false
      ∧ (sendRst l ok).seg.FIN = false) :=
  ⟨⟨rfl, rfl, rfl, rfl, rfl⟩, ⟨rfl, rfl, rfl, rfl, rfl⟩, ⟨rfl, rfl, rfl, rfl, rfl⟩,
   ⟨rfl, rfl, rfl, rfl, rfl, rfl⟩, ⟨rfl, rfl, rfl, rfl, rfl⟩, ⟨rfl, rfl, rfl, rfl, rfl⟩⟩

/-- C7: `sendPacket` pre-increments the template's IPv4 Id modulo 2^16
and stamps the incremented value on the emitted packet, so for two
consecutive sends on one flow the later packet's Id is the earlier
packet's Id plus one modulo 2^16; every send helper emits
`(template Id + 1) mod 2^16` and leaves the template at the emitted
value, so the progression holds across any pair of consecutive helper
sends. -/
theorem c7_ip_id_progression (l : PktLayersM) (b : List Nat) (ok1 ok2 : Bool) :
    (sendPacket (sendPacket l ok1).layer ok2).seg.ipId
      = ((sendPacket l ok1).seg.ipId + 1) % U16
  ∧ ((sendSyn l ok1).seg.ipId = (l.ip4.Id + 1) % U16
      ∧ (sendSyn l ok1).layer.ip4.Id = (sendSyn l ok1).seg.ipId)
  ∧ ((sendSynAck l ok1).seg.ipId = (l.ip4.Id + 1) % U16
      ∧ (sendSynAck l ok1).layer.ip4.Id = (sendSynAck l ok1).seg.ipId)
  ∧ ((sendAck l ok1).seg.ipId = (l.ip4.Id + 1) % U16
      ∧ (sendAck l ok1).layer.ip4.Id = (sendAck l ok1).seg.ipId)
  ∧ ((writeSeg l b ok1).seg.ipId = (l.ip4.Id + 1) % U16
      ∧ (writeSeg l b ok1).layer.ip4.Id = (writeSeg l b ok1).seg.ipId)
  ∧ ((sendFin l ok1).seg.ipId = (l.ip4.Id + 1) % U16
      ∧ (sendFin l ok1).layer.ip4.Id = (sendFin l ok1).seg.ipId)
  ∧ ((sendRst l ok1).seg.ipId = (l.ip4.Id + 1) % U16
      ∧ (sendRst l ok1).layer.ip4.Id = (sendRst l ok1).seg.ipId) :=
  ⟨rfl, ⟨rfl, rfl⟩, ⟨rfl, rfl⟩, ⟨rfl, rfl⟩, ⟨rfl, rfl⟩, ⟨rfl, rfl⟩, ⟨rfl, rfl⟩⟩

/-- C1 fails as stated: `RAWConn.Write` adds the payload length to `Seq`
even when the send fails.  At the concrete template `l0` (Seq 0), a
3-byte write whose injection fails returns an error, yet `Seq` has
advanced to 3. -/
theorem c1_counterexample :
    l0.tcp.Seq = 0
  ∧ (RAWConnWrite l0 [1, 2, 3] false).err = true
  ∧ (RAWConnWrite l0 [1, 2, 3] false).layer.tcp.Seq = 3 := by decide

/-- C1 amended: `Write` (dial) and `WriteTo` (listen, for a known peer)
take the flow's mutex and emit exactly one PSH+ACK segment carrying the
payload, and `Seq` is advanced by the payload length modulo 2^32
unconditionally — after a successful send and equally after a failed
one. -/
theorem c1_write_advances_seq_unconditionally
    (l : PktLayersM) (b : List Nat) (ok : Bool)
    (conns : List (String × ConnInfoM)) (addr : String) (info : ConnInfoM)
    (h : lookupAssoc conns addr = some info) :
    (RAWConnWrite l b ok).n = b.length
  ∧ (RAWConnWrite l b ok).seg.PSH = true
  ∧ (RAWConnWrite l b ok).seg.ACK = true
  ∧ (RAWConnWrite l b ok).seg.SYN = false
  ∧ (RAWConnWrite l b ok).seg.FIN = false
  ∧ (RAWConnWrite l b ok).seg.RST = false
  ∧ (RAWConnWrite l b ok).seg.Payload = b
  ∧ (RAWConnWrite l b ok).layer.tcp.Seq = (l.tcp.Seq + b.length) % U32
  ∧ (RAWListenerWriteTo conns addr b ok).seg = some (RAWConnWrite info.layer b ok).seg
  ∧ (RAWListenerWriteTo conns addr b ok).conns
      = updateAssoc conns addr { info with layer := (RAWConnWrite info.layer b ok).layer } := by
  refine ⟨rfl, rfl, rfl, rfl, rfl, rfl, rfl, rfl, ?_, ?_⟩ <;>
    simp [RAWListenerWriteTo, h]

/-- Witness for the amended C1 at a concrete flow table and payload. -/
theorem c1_write_advances_seq_witness :
    lookupAssoc [("a", info0)] "a" = some info0
  ∧ (RAWListenerWriteTo [("a", info0)] "a" [1, 2] true).seg
      = some (RAWConnWrite info0.layer [1, 2] true).seg :=
  ⟨by decide,
   (c1_write_advances_seq_unconditionally l0 [1, 2] true [("a", info0)] "a" info0
      (by decide)).2.2.2.2.2.2.2.2.1⟩

/-- C2 fails as stated: the ack update stores the uint32-wrapped sum
while comparing the widened sum, so it is not max-with-current and the
ack cursor can decrease.  With current ack 3, a captured segment with
seq 4294967295 and payload length 2 sets ack to 1. -/
theorem c2_counterexample :
    updateAck 3 4294967295 2 = 1 ∧ ¬ (3 ≤ updateAck 3 4294967295 2) := by decide

/-- C2 amended: the read-path ack update is `if seq + len > ack then
(seq + len) mod 2^32 else ack`; whenever `seq + len` does not overflow
32 bits this equals `max(current_ack, seq + len)` and the ack cursor is
non-decreasing. -/
theorem c2_ack_monotone_no_wrap (ack seq n : Nat) (h : seq + n < U32) :
    updateAck ack seq n = max ack (seq + n) ∧ ack ≤ updateAck ack seq n := by
  have hm : (seq + n) % U32 = seq + n := Nat.mod_eq_of_lt h
  unfold updateAck
  rw [hm]
  split
  · next hgt => exact ⟨(max_eq_right (Nat.le_of_lt hgt)).symm, Nat.le_of_lt hgt⟩
  · next hle => exact ⟨(max_eq_left (Nat.not_lt.mp hle)).symm, Nat.le_refl ack⟩

/-- Witness for the amended C2 at concrete cursors. -/
theorem c2_ack_monotone_no_wrap_witness :
    100 + 5 < U32 ∧ (updateAck 50 100 5 = max 50 (100 + 5) ∧ 50 ≤ updateAck 50 100 5) :=
  ⟨by decide, c2_ack_monotone_no_wrap 50 100 5 (by decide)⟩

/-- Helper: the handshake loop never sends more SYNs than the attempts
it is allowed plus those already counted. -/
theorem dialPhase1_synCount_le (g : Nat → ReadAttempt) :
    ∀ left idx syns, (dialPhase1 g left idx syns).synCount ≤ syns + left := by
  intro left
  induction left with
  | zero => intro idx syns; simp [dialPhase1, Phase1Result.synCount]
  | succ k ih =>
    intro idx syns
    cases hg : g idx with
    | timeout =>
      simp only [dialPhase1, hg]
      exact Nat.le_trans (ih (idx + 1) (syns + 1)) (by omega)
    | permErr => simp only [dialPhase1, hg, Phase1Result.synCount]; omega
    | pkt sa => simp only [dialPhase1, hg, Phase1Result.synCount]; omega

/-- C4: the dial handshake loop attempts at most 6 SYN transmissions,
and when every read attempt is a temporary read-timeout it fails with
"retry too many times" after exactly 6 SYNs. -/
theorem c4_syn_retry_bound (reads : Nat → ReadAttempt)
    (h : ∀ i, reads i = .timeout) :
    dialPhase1 reads 6 0 0 = .tooMany 6
  ∧ ∀ g : Nat → ReadAttempt, (dialPhase1 g 6 0 0).synCount ≤ 6 := by
  constructor
  · have hr : reads = fun _ => ReadAttempt.timeout := funext h
    subst hr
    decide
  · intro g
    exact dialPhase1_synCount_le g 6 0 0

/-- Witness for C4: the all-timeouts environment. -/
theorem c4_syn_retry_bound_witness :
    (∀ i : Nat, (fun _ : Nat => ReadAttempt.timeout) i = ReadAttempt.timeout)
  ∧ dialPhase1 (fun _ => ReadAttempt.timeout) 6 0 0 = .tooMany 6 :=
  ⟨fun _ => rfl,
   (c4_syn_retry_bound (fun _ => ReadAttempt.timeout) (fun _ => rfl)).1⟩

/-- C6: in the dial-side reader, a captured PSH+ACK whose Seq equals the
recorded HTTP-response sequence `hseqn` is filtered: it delivers nothing
and changes nothing, and reading the stream with it in front is the same
as reading the rest. -/
theorem c6_duplicate_filtered (hseqn bufLen ack : Nat) (s : CapSeg)
    (rest : List CapSeg)
    (hp : s.PSH = true) (ha : s.ACK = true) (hs : s.Seq = hseqn) :
    dialReadFrom hseqn bufLen ack (s :: rest) = dialReadFrom hseqn bufLen ack rest := by
  simp [dialReadFrom, hp, ha, hs]

/-- A concrete duplicate of the HTTP response (Seq equals hseqn 10). -/
def segDup : CapSeg :=
  { SYN := false, ACK := true, PSH := true, FIN := false, RST := false,
    Seq := 10, Payload := [1, 2, 3], Options := [] }

/-- Witness for C6 at a concrete duplicate segment. -/
theorem c6_duplicate_filtered_witness :
    segDup.PSH = true ∧ segDup.ACK = true ∧ segDup.Seq = 10
  ∧ dialReadFrom 10 5 0 [segDup] = dialReadFrom 10 5 0 [] :=
  ⟨rfl, rfl, rfl, c6_duplicate_filtered 10 5 0 segDup [] rfl rfl rfl⟩

/-- C8: `RAWListener.WriteTo` to an address absent from the established
table returns 0 bytes and the error "cannot write to <addr>", emits no
segment, and leaves the table unchanged. -/
theorem c8_writeto_unknown (conns : List (String × ConnInfoM)) (addr : String)
    (b : List Nat) (ok : Bool) (h : lookupAssoc conns addr = none) :
    RAWListenerWriteTo conns addr b ok
      = { conns := conns, n := 0, errMsg := some ("cannot write to " ++ addr),
          seg := none, sendErr := false } := by
  simp [RAWListenerWriteTo, h]

/-- Witness for C8 at the empty table. -/
theorem c8_writeto_unknown_witness :
    lookupAssoc [] "1.2.3.4:9000" = none
  ∧ RAWListenerWriteTo [] "1.2.3.4:9000" [9] true
      = { conns := [], n := 0,
          errMsg := some ("cannot write to " ++ "1.2.3.4:9000"),
          seg := none, sendErr := false } :=
  ⟨rfl, c8_writeto_unknown [] "1.2.3.4:9000" [9] true rfl⟩

/-- C9: when the caller's buffer is shorter than the captured payload,
both read paths return exactly the buffer length (the `copy` result,
excess bytes discarded) while the ack cursor is still updated with the
full payload length: the dial reader returns `(bufLen, updateAck ack seq
fullLen)`, and the listener established-flow step delivers `bufLen` and
stores `updateAck` of the full length in the flow's template. -/
theorem c9_short_buffer_truncates (hseqn bufLen ack : Nat) (s : CapSeg)
    (rest : List CapSeg) (info : ConnInfoM) (ok : Bool)
    (hsy : s.SYN = false) (hp : s.PSH = true) (ha : s.ACK = true)
    (hne : s.Seq ≠ hseqn) (hbuf : bufLen < s.Payload.length)
    (hest : info.state = .established) :
    dialReadFrom hseqn bufLen ack (s :: rest)
      = some (bufLen, updateAck ack s.Seq s.Payload.length)
  ∧ (connsStep bufLen info s ok).deliver = some bufLen
  ∧ (connsStep bufLen info s ok).info.layer.tcp.Ack
      = updateAck info.layer.tcp.Ack s.Seq s.Payload.length := by
  have hn : 0 < s.Payload.length := Nat.lt_of_le_of_lt (Nat.zero_le _) hbuf
  have hmin : min bufLen s.Payload.length = bufLen := min_eq_left (Nat.le_of_lt hbuf)
  refine ⟨?_, ?_, ?_⟩
  · simp [dialReadFrom, hsy, hp, ha, hne, hn, hmin]
  · simp [connsStep, hest, hmin]
  · simp [connsStep, hest]

/-- A concrete 4-byte payload segment for the short-buffer witness. -/
def segLong : CapSeg :=
  { SYN := false, ACK := true, PSH := true, FIN := false, RST := false,
    Seq := 30, Payload := [1, 2, 3, 4], Options := [] }

/-- Witness for C9 with a 2-byte buffer against a 4-byte payload. -/
theorem c9_short_buffer_truncates_witness :
    segLong.SYN = false ∧ segLong.PSH = true ∧ segLong.ACK = true
  ∧ segLong.Seq ≠ 10 ∧ 2 < segLong.Payload.length ∧ info0.state = .established
  ∧ (dialReadFrom 10 2 0 [segLong] = some (2, updateAck 0 segLong.Seq segLong.Payload.length)
      ∧ (connsStep 2 info0 segLong true).deliver = some 2
      ∧ (connsStep 2 info0 segLong true).info.layer.tcp.Ack
          = updateAck info0.layer.tcp.Ack segLong.Seq segLong.Payload.length) :=
  ⟨rfl, rfl, rfl, by decide, by decide, rfl,
   c9_short_buffer_truncates 10 2 0 segLong [] info0 true rfl rfl rfl
     (by decide) (by decide) rfl⟩

/-- C10: `GetMSSByAddr` consults only the established table, so a peer
whose flow is still in `newcons` — even though its record already holds
the MSS decoded from the peer's SYN — gets 0; and an established entry
whose recorded MSS is not positive also gets 0. -/
theorem c10_mss_pre_established
    (conns newcons : List (String × ConnInfoM)) (addr : String)
    (srcIP dstIP srcPort dstPort idSeed seqSeed : Nat) (s : CapSeg)
    (hn : lookupAssoc newcons addr
            = some (newFlowFromSyn srcIP dstIP srcPort dstPort idSeed seqSeed s))
    (hc : lookupAssoc conns addr = none) :
    GetMSSByAddr conns addr = 0
  ∧ (newFlowFromSyn srcIP dstIP srcPort dstPort idSeed seqSeed s).mss
      = getMssFromTcpLayer s.Options
  ∧ (∀ conns2 : List (String × ConnInfoM), ∀ info : ConnInfoM,
       lookupAssoc conns2 addr = some info → info.mss ≤ 0
         → GetMSSByAddr conns2 addr = 0) := by
  refine ⟨?_, rfl, ?_⟩
  · simp [GetMSSByAddr, hc]
  · intro conns2 info h2 hm
    have hnp : ¬ (info.mss > 0) := by omega
    simp [GetMSSByAddr, h2, hnp]

/-- A concrete captured SYN carrying an MSS option of 1400. -/
def segSyn : CapSeg :=
  { SYN := true, ACK := false, PSH := false, FIN := false, RST := false,
    Seq := 500, Payload := [], Options := [{ kind := 2, data := [5, 120] }] }

/-- Witness for C10: the SYN-created flow sits in `newcons` with MSS
1400, yet `GetMSSByAddr` over the empty established table returns 0. -/
theorem c10_mss_pre_established_witness :
    lookupAssoc [("p", newFlowFromSyn 1 2 3 4 5 6 segSyn)] "p"
      = some (newFlowFromSyn 1 2 3 4 5 6 segSyn)
  ∧ lookupAssoc [] "p" = none
  ∧ (newFlowFromSyn 1 2 3 4 5 6 segSyn).mss = 1400
  ∧ GetMSSByAddr [] "p" = 0 :=
  ⟨by decide, rfl, by decide,
   (c10_mss_pre_established [] [("p", newFlowFromSyn 1 2 3 4 5 6 segSyn)] "p"
      1 2 3 4 5 6 segSyn (by decide) rfl).1⟩

/-- C3 fails as stated: the listener's `waithttpreq` check is `n > 20`,
strictly.  A captured PSH+ACK whose 20-byte payload starts with "POST"
and ends with CRLF CRLF — which the claim says triggers the response —
is ignored: the flow stays in `waithttpreq` and nothing is emitted. -/
theorem c3_counterexample :
    seg20.PSH = true ∧ seg20.ACK = true ∧ seg20.Payload.length = 20
  ∧ seg20.Payload.take 4 = postBytes
  ∧ seg20.Payload.drop (seg20.Payload.length - 4) = crlf2
  ∧ infoW.state = .waithttpreq
  ∧ (waithttpreqStep infoW seg20 true).info.state = .waithttpreq
  ∧ (waithttpreqStep infoW seg20 true).emit = none := by decide

/-- C3 amended: for a listener flow in `waithttpreq`, a captured segment
(with a successful injection) sends the decoy HTTP response and moves
the flow to `httprepsent` exactly when it is PSH+ACK, its payload length
is strictly greater than 20, its first 4 bytes are "POST" and its last 4
bytes are CRLF CRLF; this length-and-affix heuristic is the only
validation — the bytes in between are never inspected. -/
theorem c3_waithttpreq_trigger (info : ConnInfoM) (s : CapSeg)
    (hst : info.state = .waithttpreq) :
    ((waithttpreqStep info s true).info.state = .httprepsent
       ∧ (waithttpreqStep info s true).emit ≠ none)
  ↔ (s.PSH = true ∧ s.ACK = true ∧ s.Payload.length > 20
       ∧ s.Payload.take 4 = postBytes
       ∧ s.Payload.drop (s.Payload.length - 4) = crlf2) := by
  simp only [waithttpreqStep]
  split
  · next hcond =>
    split
    · next haff =>
      apply iff_of_true
      · constructor
        · simp [writeSeg, sendPacket]
        · simp [writeSeg, sendPacket]
      · exact ⟨hcond.1, hcond.2.1, hcond.2.2, haff.1, haff.2⟩
    · next haff =>
      apply iff_of_false
      · intro hl
        rw [hst] at hl
        exact absurd hl.1 (by simp)
      · intro hr
        exact haff ⟨hr.2.2.2.1, hr.2.2.2.2⟩
  · next hcond =>
    split
    · next hsyn =>
      apply iff_of_false
      · intro hl
        rw [hst] at hl
        exact absurd hl.1 (by simp)
      · intro hr
        exact hcond ⟨hr.1, hr.2.1, hr.2.2.1⟩
    · next hsyn =>
      apply iff_of_false
      · intro hl
        rw [hst] at hl
        exact absurd hl.1 (by simp)
      · intro hr
        exact hcond ⟨hr.1, hr.2.1, hr.2.2.1⟩

/-- Witness for the amended C3: a 21-byte POST-shaped payload does
trigger the response and the transition. -/
theorem c3_waithttpreq_trigger_witness :
    infoW.state = .waithttpreq
  ∧ ((waithttpreqStep infoW seg21 true).info.state = .httprepsent
       ∧ (waithttpreqStep infoW seg21 true).emit ≠ none) :=
  ⟨rfl, (c3_waithttpreq_trigger infoW seg21 rfl).mpr (by decide)⟩
